import Mathlib

/-!
Verification of the `/converter` endpoint of the flask-currency-converter
repository (src/app.py), as a shallow embedding in Lean 4.

The endpoint reads the query parameters `base-currency`, `to-currency` and
(optionally) `amount`, validates them, performs one outbound HTTP GET to a
third-party latest-rates API, and returns a JSON body.  We embed:

  * the request's query parameters (`Args`),
  * JSON values (`Json`) for the upstream response body,
  * Python `float(str)` on finite decimal literals (`pyFloat?`),
  * Python `round(x, 2)` (round-half-to-even) on exact rationals (`pyRound2`),
  * the three functions of src/app.py: `validation_check`,
    `get_conversion_rate` and `convert_currency`.

The outbound dependency is a parameter `upstream : UpstreamRequest → Option Json`;
`none` models any failure of `requests.get(...)` / `r.json()` (unreachable
provider, unparseable body).  Unhandled Python exceptions are the `Outcome.exn`
result; the list of `UpstreamRequest`s returned alongside the outcome records
every outbound call the request performed.
-/

/-- The request's query parameters, restricted to the three keys the endpoint
reads (`base-currency`, `to-currency`, `amount`).  `none` models an absent
parameter; `some ""` a parameter supplied with an empty value. -/
structure Args where
  baseCurrency : Option String
  toCurrency : Option String
  amount : Option String
deriving DecidableEq, Repr

/-- JSON values, used for the upstream response body and for the value the
endpoint forwards as `conversion_rate`. -/
inductive Json where
  | null : Json
  | bool : Bool → Json
  | num : ℚ → Json
  | str : String → Json
  | arr : List Json → Json
  | obj : List (String × Json) → Json

/-- A value occurring in a response body: either a JSON value or the echoed
query parameters (`user_input`, which src/app.py sets to the `args` mapping
itself). -/
inductive Val where
  | json : Json → Val
  | args : Args → Val

/-- An HTTP response of the endpoint: an ordered JSON object (field list, in
Python dict insertion order) plus a status code. -/
structure Resp where
  body : List (String × Val)
  status : Nat

/-- `Outcome.resp r`: the request returned response `r`.
`Outcome.exn`: an unhandled Python exception propagated out of the handler
(surfacing as a generic server error). -/
inductive Outcome where
  | resp : Resp → Outcome
  | exn : Outcome

/-- Python dict key lookup on an ordered field list (first match). -/
def lookupField : List (String × Val) → String → Option Val
  | [], _ => none
  | (k, v) :: rest, key => if k = key then some v else lookupField rest key

/-- Python dict key lookup on an ordered JSON field list (first match). -/
def lookupJson : List (String × Json) → String → Option Json
  | [], _ => none
  | (k, v) :: rest, key => if k = key then some v else lookupJson rest key

/-- Python dict key lookup inside a JSON object (`d[key]`); `none` models the
KeyError/TypeError the subscript would raise. -/
def Json.get? : Json → String → Option Json
  | .obj fields, key => lookupJson fields key
  | _, _ => none

/-- Python numeric coercion of a JSON value in an arithmetic expression:
numbers are themselves, booleans are ints (`True * 1.0 == 1.0`); any other
value raises TypeError (`none`). -/
def Json.asPyNumber : Json → Option ℚ
  | .num q => some q
  | .bool b => some (if b then 1 else 0)
  | _ => none

/-- Digit list to natural number (most significant first). -/
def digitsToNat (cs : List Char) : ℕ :=
  cs.foldl (fun a c => a * 10 + (c.toNat - 48)) 0

/-- Split a leading run of decimal digits off a character list. -/
def splitDigits (cs : List Char) : List Char × List Char :=
  (cs.takeWhile Char.isDigit, cs.dropWhile Char.isDigit)

/-- Model of Python `float(s)` on finite decimal literals, returning the exact
rational value: optional surrounding whitespace, optional sign, digits with an
optional decimal point (at least one digit overall), and an optional
`e`/`E` exponent with optional sign and at least one digit.  The special
values `inf`/`infinity`/`nan` and underscore digit separators, which Python
also accepts, are outside this model; `none` models the ValueError raised on
any string the grammar rejects (in particular the empty string). -/
def pyFloat? (s : String) : Option ℚ :=
  let cs := ((s.toList.dropWhile Char.isWhitespace).reverse.dropWhile
    Char.isWhitespace).reverse
  let sgncs : ℚ × List Char :=
    match cs with
    | '+' :: t => (1, t)
    | '-' :: t => (-1, t)
    | t => (1, t)
  let ir := splitDigits sgncs.2
  let fr : List Char × List Char :=
    match ir.2 with
    | '.' :: t => splitDigits t
    | t => ([], t)
  if ir.1.isEmpty && fr.1.isEmpty then none
  else
    let mant : ℚ :=
      sgncs.1 * ((digitsToNat ir.1 : ℚ) +
        (digitsToNat fr.1 : ℚ) / ((10 : ℚ) ^ fr.1.length))
    match fr.2 with
    | [] => some mant
    | c :: t =>
      if c = 'e' || c = 'E' then
        let esgnt : ℤ × List Char :=
          match t with
          | '+' :: u => (1, u)
          | '-' :: u => (-1, u)
          | u => (1, u)
        let er := splitDigits esgnt.2
        if er.1.isEmpty || !er.2.isEmpty then none
        else some (mant * (10 : ℚ) ^ (esgnt.1 * (digitsToNat er.1 : ℤ)))
      else none

/-- Round a rational to the nearest integer, ties to even (Python's rounding
mode). -/
def roundHalfEven (q : ℚ) : ℤ :=
  let f := ⌊q⌋
  let r := q - (f : ℚ)
  if r < 1 / 2 then f
  else if 1 / 2 < r then f + 1
  else if f % 2 = 0 then f else f + 1

/-- Model of Python `round(x, 2)` on exact rationals: round `100 * x` half to
even, divide by 100. -/
def pyRound2 (q : ℚ) : ℚ := (roundHalfEven (q * 100) : ℚ) / 100

/-- `float(base_amount)` where `base_amount = args.get('amount', 1)`:
either the supplied string (parsed as a float) or the integer default `1`
(on which `float` never raises). -/
def floatOf : Sum String Unit → Option ℚ
  | .inl s => pyFloat? s
  | .inr _ => some 1

/-- Python `str.upper()`, on ASCII text (`Char.toUpper` uppercases exactly
the ASCII letters; non-ASCII characters, which Python would also case-map,
pass through — irrelevant for the three ASCII currency codes). -/
def pyUpper (s : String) : String := String.mk (s.toList.map Char.toUpper)

/-- The fixed allow-list of src/app.py line 64. -/
def VALID_COUNTRIES : List String := ["USD", "GBP", "EUR"]

/-- Line 67's membership test for one code: `code.upper() in VALID_COUNTRIES`. -/
def validCode (s : String) : Bool := VALID_COUNTRIES.contains (pyUpper s)

/-- The 400 response built at src/app.py lines 68-73 for an invalid or
missing currency code. -/
def currencyError (user_input : Args) : Resp :=
  Resp.mk [
    ("error", .json (.str "Invalid or missing query parameters")),
    ("notes", .json (.str "Query parameters, base-currency and to-currency, are required. Values must be valid ISO 4217 country codes. Only USD, GBP, and EUR are currently supported.")),
    ("user_input", .args user_input)] 400

/-- The 400 response built at src/app.py lines 79-84 for an unparseable
amount. -/
def amountError (user_input : Args) : Resp :=
  Resp.mk [
    ("error", .json (.str "Invalid amount passed in")),
    ("notes", .json (.str "Make sure amount is a valid number.")),
    ("user_input", .args user_input)] 400

/-- src/app.py `validation_check` (lines 59-86): currency allow-list check
first, then `float(base_amount)`; `none` models the falsy empty tuple that
lets `convert_currency` proceed. -/
def validation_check (base_currency to_currency : String)
    (base_amount : Sum String Unit) (user_input : Args) : Option Resp :=
  if !validCode base_currency || !validCode to_currency then
    some (currencyError user_input)
  else
    match floatOf base_amount with
    | none => some (amountError user_input)
    | some _ => none

/-- The provider endpoint URL of src/app.py line 101. -/
def RATE_ENDPOINT : String := "https://api.currencyapi.com/v3/latest"

/-- One outbound GET to the rate provider: the URL plus the exact query
parameters of src/app.py lines 103-107. -/
structure UpstreamRequest where
  url : String
  apikey : String
  base_currency : String
  currencies : List String
deriving DecidableEq, Repr

/-- The request `get_conversion_rate` sends (src/app.py lines 101-109):
both codes uppercased, the configured API key, `currencies` a one-element
list. -/
def mkRateRequest (apikey base_currency to_currency : String) : UpstreamRequest :=
  UpstreamRequest.mk RATE_ENDPOINT apikey (pyUpper base_currency) [pyUpper to_currency]

/-- src/app.py `get_conversion_rate` (lines 88-126): build the request, call
the provider once, and return `r.json()['data'][to_currency.upper()]['value']`.
The first component is the extracted value (`none` = an unhandled exception:
the call or JSON decoding failed, or a subscript raised); the second lists
the outbound calls performed. -/
def get_conversion_rate (apikey : String)
    (upstream : UpstreamRequest → Option Json)
    (base_currency to_currency : String) : Option Json × List UpstreamRequest :=
  let req := mkRateRequest apikey base_currency to_currency
  match upstream req with
  | none => (none, [req])
  | some body =>
    (((body.get? "data").bind fun d => d.get? (pyUpper to_currency)).bind
      fun e => e.get? "value", [req])

/-- Truthiness of `args.get('amount')` at src/app.py line 53: present and
non-empty. -/
def amountTruthy (args : Args) : Bool :=
  match args.amount with
  | some s => !(s == "")
  | none => false

/-- `base_amount = args.get('amount', 1)` (src/app.py line 40): the supplied
string, or the int default `1` (`Sum.inr ()`). -/
def argsBaseAmount (args : Args) : Sum String Unit :=
  match args.amount with
  | some s => .inl s
  | none => .inr ()

/-- The success response for a request with no (truthy) amount (src/app.py
lines 47-50): `{conversion_rate, user_input}` with Flask's default status
200. -/
def successResp (rate : Json) (args : Args) : Resp :=
  Resp.mk [("conversion_rate", .json rate), ("user_input", .args args)] 200

/-- The success response when `converted_amount` is appended (src/app.py
lines 53-55): same dict with `converted_amount = round(q * amt, 2)` inserted
after the first two keys; Flask's default status 200. -/
def successRespAmt (rate : Json) (args : Args) (q amt : ℚ) : Resp :=
  Resp.mk [("conversion_rate", .json rate), ("user_input", .args args),
    ("converted_amount", .json (.num (pyRound2 (q * amt))))] 200

/-- src/app.py `convert_currency` (lines 18-57).  Reads the parameters with
the defaults of lines 38-40 (the empty string twice, the int `1`), runs
`validation_check`, calls `get_conversion_rate`, then builds
`\x7bconversion_rate, user_input\x7d` in that order, appending
`converted_amount = round(conversion_rate * float(base_amount), 2)` when
`args.get('amount')` is truthy.  A plain dict return carries Flask's default
status 200.  Returns the outcome and the list of outbound calls made. -/
def convert_currency (apikey : String)
    (upstream : UpstreamRequest → Option Json) (args : Args) :
    Outcome × List UpstreamRequest :=
  let base_currency := args.baseCurrency.getD ""
  let to_currency := args.toCurrency.getD ""
  let base_amount := argsBaseAmount args
  match validation_check base_currency to_currency base_amount args with
  | some r => (.resp r, [])
  | none =>
    let rc := get_conversion_rate apikey upstream base_currency to_currency
    match rc.1 with
    | none => (.exn, rc.2)
    | some rate =>
      if amountTruthy args then
        match rate.asPyNumber, floatOf base_amount with
        | some q, some amt => (.resp (successRespAmt rate args q amt), rc.2)
        | _, _ => (.exn, rc.2)
      else
        (.resp (successResp rate args), rc.2)

/-- Replace the value of the `user_input` field of a response body by the
given query parameters (used to state that two requests behave identically
apart from the echoed input). -/
def replaceUserInput (r : Resp) (a : Args) : Resp :=
  Resp.mk (r.body.map fun p => if p.1 = "user_input" then (p.1, Val.args a) else p)
    r.status

/-- Lift `replaceUserInput` to outcomes (an unhandled exception carries no
body). -/
def Outcome.withUserInput : Outcome → Args → Outcome
  | .resp r, a => .resp (replaceUserInput r a)
  | .exn, _ => .exn

/-- An upstream provider that always fails (unreachable, or a body
`r.json()` cannot decode). -/
def upstreamNone : UpstreamRequest → Option Json := fun _ => none

/-- An upstream provider that answers every request with the same JSON
body. -/
def constUpstream (body : Json) : UpstreamRequest → Option Json := fun _ => some body

/-- The upstream body shape documented in src/app.py lines 111-124:
`data` maps the requested code to an object with `code` and `value`
fields. -/
def goodBody (code : String) (v : Json) : Json :=
  Json.obj [("data", Json.obj [(code, Json.obj [("code", Json.str code), ("value", v)])])]

/-- C1: For every request in which base-currency or to-currency, compared
case-insensitively, is not one of USD, GBP, EUR (including a missing or empty
parameter), the endpoint responds with HTTP 400, a body with exactly the
fields `error`, `notes`, `user_input`, and the one fixed currency-validation
error regardless of whether the parameter is missing, empty or unsupported. -/
theorem invalid_currency_uniform_400 (apikey : String)
    (upstream : UpstreamRequest → Option Json) (args : Args)
    (h : validCode (args.baseCurrency.getD "") = false ∨
      validCode (args.toCurrency.getD "") = false) :
    (convert_currency apikey upstream args).1 = .resp (currencyError args)
    ∧ (currencyError args).status = 400
    ∧ (currencyError args).body.map Prod.fst = ["error", "notes", "user_input"] := by
  refine ⟨?_, rfl, rfl⟩
  rcases h with h | h <;> simp [convert_currency, validation_check, h]

/-- Witness for C1 at `base-currency=XXX&to-currency=USD` (and, for the
missing/empty cases, the same hypothesis holds at absent parameters). -/
theorem invalid_currency_uniform_400_witness :
    (validCode ((Args.mk (some "XXX") (some "USD") none).baseCurrency.getD "") = false ∨
      validCode ((Args.mk (some "XXX") (some "USD") none).toCurrency.getD "") = false)
    ∧ ((convert_currency "key" upstreamNone (Args.mk (some "XXX") (some "USD") none)).1
        = .resp (currencyError (Args.mk (some "XXX") (some "USD") none))
      ∧ (currencyError (Args.mk (some "XXX") (some "USD") none)).status = 400
      ∧ (currencyError (Args.mk (some "XXX") (some "USD") none)).body.map Prod.fst
        = ["error", "notes", "user_input"]) :=
  ⟨Or.inl rfl, invalid_currency_uniform_400 "key" upstreamNone _ (Or.inl rfl)⟩

/-- C2: With two valid currency codes and an `amount` parameter present but
not parseable as a float, the endpoint responds 400 with the invalid-amount
body, whose `error` and `notes` strings differ from the currency-validation
error's, and which includes `user_input`. -/
theorem invalid_amount_distinct_400 (apikey : String)
    (upstream : UpstreamRequest → Option Json) (args : Args) (s : String)
    (hb : validCode (args.baseCurrency.getD "") = true)
    (ht : validCode (args.toCurrency.getD "") = true)
    (hs : args.amount = some s)
    (hp : pyFloat? s = none) :
    (convert_currency apikey upstream args).1 = .resp (amountError args)
    ∧ (amountError args).status = 400
    ∧ (amountError args).body.map Prod.fst = ["error", "notes", "user_input"]
    ∧ lookupField (amountError args).body "error"
        ≠ lookupField (currencyError args).body "error"
    ∧ lookupField (amountError args).body "notes"
        ≠ lookupField (currencyError args).body "notes" := by
  refine ⟨?_, rfl, rfl, ?_, ?_⟩
  · simp [convert_currency, validation_check, hb, ht, argsBaseAmount, hs, floatOf, hp]
  · simp [amountError, currencyError, lookupField]
  · simp [amountError, currencyError, lookupField]

/-- Witness for C2 at `base-currency=GBP&to-currency=USD&amount=notanumber`. -/
theorem invalid_amount_distinct_400_witness :
    pyFloat? "notanumber" = none
    ∧ ((convert_currency "key" upstreamNone
          (Args.mk (some "GBP") (some "USD") (some "notanumber"))).1
        = .resp (amountError (Args.mk (some "GBP") (some "USD") (some "notanumber")))
      ∧ (amountError (Args.mk (some "GBP") (some "USD") (some "notanumber"))).status = 400
      ∧ (amountError (Args.mk (some "GBP") (some "USD") (some "notanumber"))).body.map
          Prod.fst = ["error", "notes", "user_input"]
      ∧ lookupField (amountError (Args.mk (some "GBP") (some "USD") (some "notanumber"))).body
          "error" ≠ lookupField (currencyError (Args.mk (some "GBP") (some "USD")
          (some "notanumber"))).body "error"
      ∧ lookupField (amountError (Args.mk (some "GBP") (some "USD") (some "notanumber"))).body
          "notes" ≠ lookupField (currencyError (Args.mk (some "GBP") (some "USD")
          (some "notanumber"))).body "notes") :=
  ⟨rfl, invalid_amount_distinct_400 "key" upstreamNone _ "notanumber" rfl rfl rfl rfl⟩

/-- C10: An explicitly supplied empty `amount` alongside two valid codes gets
the 400 invalid-amount error: the empty string is an unparseable amount, not
an absent one. -/
theorem empty_amount_is_invalid_amount (apikey : String)
    (upstream : UpstreamRequest → Option Json) (b t : String)
    (hb : validCode b = true) (ht : validCode t = true) :
    (convert_currency apikey upstream (Args.mk (some b) (some t) (some ""))).1
      = .resp (amountError (Args.mk (some b) (some t) (some "")))
    ∧ (amountError (Args.mk (some b) (some t) (some ""))).status = 400 := by
  refine ⟨?_, rfl⟩
  simp [convert_currency, validation_check, hb, ht, argsBaseAmount, floatOf,
    show pyFloat? "" = none from rfl]

/-- Witness for C10 at `base-currency=GBP&to-currency=USD&amount=`. -/
theorem empty_amount_is_invalid_amount_witness :
    validCode "GBP" = true
    ∧ ((convert_currency "key" upstreamNone (Args.mk (some "GBP") (some "USD") (some ""))).1
        = .resp (amountError (Args.mk (some "GBP") (some "USD") (some "")))
      ∧ (amountError (Args.mk (some "GBP") (some "USD") (some ""))).status = 400) :=
  ⟨rfl, empty_amount_is_invalid_amount "key" upstreamNone "GBP" "USD" rfl rfl⟩

/-- `validation_check` returns nothing, the fixed currency error, or the
fixed amount error. -/
theorem validation_check_cases (b t : String) (ba : Sum String Unit) (ui : Args) :
    validation_check b t ba ui = none
    ∨ validation_check b t ba ui = some (currencyError ui)
    ∨ validation_check b t ba ui = some (amountError ui) := by
  unfold validation_check
  split
  · exact Or.inr (Or.inl rfl)
  · cases floatOf ba
    · exact Or.inr (Or.inr rfl)
    · exact Or.inl rfl

/-- Every response `convert_currency` can return is one of the two fixed 400
bodies or one of the two success shapes, and the amount-bearing success shape
occurs only when `args.get('amount')` is truthy. -/
theorem convert_currency_resp_cases (apikey : String)
    (upstream : UpstreamRequest → Option Json) (args : Args) (r : Resp)
    (h : (convert_currency apikey upstream args).1 = .resp r) :
    r = currencyError args ∨ r = amountError args
    ∨ (∃ rate, r = successResp rate args)
    ∨ (∃ rate q amt, amountTruthy args = true ∧ r = successRespAmt rate args q amt) := by
  rcases validation_check_cases (args.baseCurrency.getD "") (args.toCurrency.getD "")
      (argsBaseAmount args) args with hv | hv | hv
  · simp only [convert_currency, hv] at h
    rcases hrc : (get_conversion_rate apikey upstream (args.baseCurrency.getD "")
        (args.toCurrency.getD "")).1 with _ | rate
    · simp only [hrc] at h
      simp at h
    · simp only [hrc] at h
      cases hat : amountTruthy args
      · simp only [hat, Bool.false_eq_true, if_false] at h
        simp at h
        exact Or.inr (Or.inr (Or.inl ⟨rate, h.symm⟩))
      · simp only [hat, if_true] at h
        rcases hq : rate.asPyNumber with _ | q
        · simp only [hq] at h
          simp at h
        · rcases hf : floatOf (argsBaseAmount args) with _ | amt
          · simp only [hq, hf] at h
            simp at h
          · simp only [hq, hf] at h
            simp at h
            exact Or.inr (Or.inr (Or.inr ⟨rate, q, amt, rfl, h.symm⟩))
  · simp only [convert_currency, hv] at h
    simp at h
    exact Or.inl h.symm
  · simp only [convert_currency, hv] at h
    simp at h
    exact Or.inr (Or.inl h.symm)

/-- C6: every response the endpoint produces — success or either 400 error —
carries a `user_input` field echoing exactly the query parameters supplied. -/
theorem user_input_always_echoed (apikey : String)
    (upstream : UpstreamRequest → Option Json) (args : Args) (r : Resp)
    (h : (convert_currency apikey upstream args).1 = .resp r) :
    lookupField r.body "user_input" = some (.args args) := by
  rcases convert_currency_resp_cases apikey upstream args r h with
    rfl | rfl | ⟨rate, rfl⟩ | ⟨rate, q, amt, -, rfl⟩ <;> rfl

/-- Witness for C6 on the currency-error response to `base-currency=XXX`. -/
theorem user_input_always_echoed_witness :
    lookupField (currencyError (Args.mk (some "XXX") (some "USD") none)).body "user_input"
      = some (.args (Args.mk (some "XXX") (some "USD") none)) :=
  user_input_always_echoed "key" upstreamNone (Args.mk (some "XXX") (some "USD") none)
    (currencyError (Args.mk (some "XXX") (some "USD") none)) rfl

/-- C4: for any pair of codes from the allow-list and no `amount` parameter,
a successful upstream lookup yields status 200 (the framework default) with a
`conversion_rate` field and no `converted_amount` field. -/
theorem valid_pair_no_amount_200 (apikey : String)
    (upstream : UpstreamRequest → Option Json) (b t : String) (rate : Json)
    (hb : b ∈ VALID_COUNTRIES) (ht : t ∈ VALID_COUNTRIES)
    (hr : (get_conversion_rate apikey upstream b t).1 = some rate) :
    (convert_currency apikey upstream (Args.mk (some b) (some t) none)).1
      = .resp (successResp rate (Args.mk (some b) (some t) none))
    ∧ (successResp rate (Args.mk (some b) (some t) none)).status = 200
    ∧ lookupField (successResp rate (Args.mk (some b) (some t) none)).body "conversion_rate"
      = some (.json rate)
    ∧ lookupField (successResp rate (Args.mk (some b) (some t) none)).body "converted_amount"
      = none := by
  have hvb : validCode b = true := by
    simp only [VALID_COUNTRIES, List.mem_cons, List.not_mem_nil, or_false] at hb
    rcases hb with rfl | rfl | rfl <;> rfl
  have hvt : validCode t = true := by
    simp only [VALID_COUNTRIES, List.mem_cons, List.not_mem_nil, or_false] at ht
    rcases ht with rfl | rfl | rfl <;> rfl
  refine ⟨?_, rfl, rfl, rfl⟩
  simp [convert_currency, validation_check, hvb, hvt, argsBaseAmount, floatOf,
    amountTruthy, hr]

/-- Witness for C4 at the pair (EUR, USD). -/
theorem valid_pair_no_amount_200_witness :
    "EUR" ∈ VALID_COUNTRIES
    ∧ ((convert_currency "key" (constUpstream (goodBody "USD" (Json.num 2)))
          (Args.mk (some "EUR") (some "USD") none)).1
        = .resp (successResp (Json.num 2) (Args.mk (some "EUR") (some "USD") none))
      ∧ (successResp (Json.num 2) (Args.mk (some "EUR") (some "USD") none)).status = 200
      ∧ lookupField (successResp (Json.num 2)
          (Args.mk (some "EUR") (some "USD") none)).body "conversion_rate"
        = some (.json (Json.num 2))
      ∧ lookupField (successResp (Json.num 2)
          (Args.mk (some "EUR") (some "USD") none)).body "converted_amount" = none) :=
  ⟨by decide, valid_pair_no_amount_200 "key" (constUpstream (goodBody "USD" (Json.num 2)))
    "EUR" "USD" (Json.num 2) (by decide) (by decide) rfl⟩

/-- C8: when the validated request's upstream call fails — unreachable
provider, undecodable body, or a decoded body in which the chain
`data → code → value` is missing — the handler catches nothing: the request
ends in an unhandled exception, not in a 400 body or a 200 body. -/
theorem upstream_failure_unhandled (apikey : String)
    (upstream : UpstreamRequest → Option Json) (args : Args)
    (hv : validation_check (args.baseCurrency.getD "") (args.toCurrency.getD "")
      (argsBaseAmount args) args = none)
    (hf : (get_conversion_rate apikey upstream (args.baseCurrency.getD "")
      (args.toCurrency.getD "")).1 = none) :
    (convert_currency apikey upstream args).1 = .exn := by
  simp [convert_currency, hv, hf]

/-- Witness for C8: valid codes, unreachable provider. -/
theorem upstream_failure_unhandled_witness :
    (get_conversion_rate "key" upstreamNone "GBP" "USD").1 = none
    ∧ (convert_currency "key" upstreamNone (Args.mk (some "GBP") (some "USD") none)).1
      = .exn :=
  ⟨rfl, upstream_failure_unhandled "key" upstreamNone
    (Args.mk (some "GBP") (some "USD") none) rfl rfl⟩

/-- C3: with valid codes and an explicitly supplied parseable amount, the
success body holds `conversion_rate`, `user_input` and additionally
`converted_amount = round(conversion_rate * amount, 2)`; and a request that
did not supply `amount` never gets a `converted_amount` field. -/
theorem converted_amount_formula (apikey : String)
    (upstream : UpstreamRequest → Option Json) (args : Args) (s : String) (q : ℚ)
    (hb : validCode (args.baseCurrency.getD "") = true)
    (ht : validCode (args.toCurrency.getD "") = true)
    (hs : args.amount = some s)
    (hp : (pyFloat? s).isSome = true)
    (hr : (get_conversion_rate apikey upstream (args.baseCurrency.getD "")
      (args.toCurrency.getD "")).1 = some (Json.num q)) :
    (convert_currency apikey upstream args).1
      = .resp (successRespAmt (Json.num q) args q ((pyFloat? s).get hp))
    ∧ lookupField (successRespAmt (Json.num q) args q ((pyFloat? s).get hp)).body
        "converted_amount"
      = some (.json (.num (pyRound2 (q * (pyFloat? s).get hp))))
    ∧ lookupField (successRespAmt (Json.num q) args q ((pyFloat? s).get hp)).body
        "conversion_rate" = some (.json (.num q))
    ∧ lookupField (successRespAmt (Json.num q) args q ((pyFloat? s).get hp)).body
        "user_input" = some (.args args)
    ∧ ∀ (args' : Args) (r' : Resp), args'.amount = none →
        (convert_currency apikey upstream args').1 = .resp r' →
        lookupField r'.body "converted_amount" = none := by
  have hne : s ≠ "" := by
    rintro rfl
    rw [show pyFloat? "" = none from rfl] at hp
    simp at hp
  have hat : amountTruthy args = true := by
    simp [amountTruthy, hs, hne]
  have hval : validation_check (args.baseCurrency.getD "") (args.toCurrency.getD "")
      (argsBaseAmount args) args = none := by
    rcases hps : pyFloat? s with _ | amt
    · rw [hps] at hp; simp at hp
    · simp [validation_check, hb, ht, argsBaseAmount, hs, floatOf, hps]
  refine ⟨?_, rfl, rfl, rfl, ?_⟩
  · simp only [convert_currency, hval, hr, hat, if_true, Json.asPyNumber]
    rw [show floatOf (argsBaseAmount args) = pyFloat? s from by
      simp [argsBaseAmount, hs, floatOf]]
    have hkey : pyFloat? s = some ((pyFloat? s).get hp) := (Option.some_get hp).symm
    conv_lhs => rw [hkey]
  · intro args' r' hnone h'
    rcases convert_currency_resp_cases apikey upstream args' r' h' with
      rfl | rfl | ⟨rate, rfl⟩ | ⟨rate, q', amt', hat', rfl⟩
    · rfl
    · rfl
    · rfl
    · exfalso
      simp [amountTruthy, hnone] at hat'

/-- Witness for C3 at `base-currency=GBP&to-currency=USD&amount=123` with a
provider rate of 2. -/
theorem converted_amount_formula_witness :
    (pyFloat? "123").isSome = true
    ∧ (convert_currency "key" (constUpstream (goodBody "USD" (Json.num 2)))
        (Args.mk (some "GBP") (some "USD") (some "123"))).1
      = .resp (successRespAmt (Json.num 2) (Args.mk (some "GBP") (some "USD") (some "123"))
          2 ((pyFloat? "123").get rfl))
    ∧ lookupField (successRespAmt (Json.num 2)
        (Args.mk (some "GBP") (some "USD") (some "123")) 2
        ((pyFloat? "123").get rfl)).body "converted_amount"
      = some (.json (.num (pyRound2 (2 * (pyFloat? "123").get rfl)))) :=
  ⟨rfl,
   (converted_amount_formula "key" (constUpstream (goodBody "USD" (Json.num 2)))
     (Args.mk (some "GBP") (some "USD") (some "123")) "123" 2 rfl rfl rfl rfl rfl).1,
   (converted_amount_formula "key" (constUpstream (goodBody "USD" (Json.num 2)))
     (Args.mk (some "GBP") (some "USD") (some "123")) "123" 2 rfl rfl rfl rfl rfl).2.1⟩

/-- `get_conversion_rate` performs exactly one outbound call, whether or not
the provider answers. -/
theorem get_conversion_rate_calls (apikey : String)
    (upstream : UpstreamRequest → Option Json) (b t : String) :
    (get_conversion_rate apikey upstream b t).2 = [mkRateRequest apikey b t] := by
  rcases h : upstream (mkRateRequest apikey b t) with _ | body <;>
    simp [get_conversion_rate, h]

/-- The endpoint's outbound calls: none when validation fails, exactly the
one rate request when it passes. -/
theorem convert_currency_calls (apikey : String)
    (upstream : UpstreamRequest → Option Json) (args : Args) :
    (convert_currency apikey upstream args).2
      = (match validation_check (args.baseCurrency.getD "") (args.toCurrency.getD "")
            (argsBaseAmount args) args with
        | some _ => []
        | none => [mkRateRequest apikey (args.baseCurrency.getD "")
            (args.toCurrency.getD "")]) := by
  rcases hv : validation_check (args.baseCurrency.getD "") (args.toCurrency.getD "")
      (argsBaseAmount args) args with _ | vr
  · simp only [convert_currency, hv]
    rcases hrc : (get_conversion_rate apikey upstream (args.baseCurrency.getD "")
        (args.toCurrency.getD "")).1 with _ | rate
    · simp only [hrc]
      exact get_conversion_rate_calls apikey upstream _ _
    · simp only [hrc]
      cases hat : amountTruthy args
      · simp [hat, get_conversion_rate_calls]
      · rcases rate.asPyNumber with _ | q <;> rcases floatOf (argsBaseAmount args) with _ | amt <;>
          simp [hat, get_conversion_rate_calls]
  · simp only [convert_currency, hv]

/-- C7 counterexample: the request `base-currency=XXX&to-currency=USD` fails
validation and performs zero outbound calls — not exactly one per request. -/
theorem one_call_per_request_cex :
    ((convert_currency "key" upstreamNone
      (Args.mk (some "XXX") (some "USD") none)).2).length ≠ 1 := by
  decide

/-- C7 amended: never more than one outbound call (no retries, and in this
stateless semantics no caching); exactly one for every request that passes
validation, none for a request that fails it. -/
theorem one_call_amended (apikey : String)
    (upstream : UpstreamRequest → Option Json) (args : Args) :
    (convert_currency apikey upstream args).2.length ≤ 1
    ∧ (validation_check (args.baseCurrency.getD "") (args.toCurrency.getD "")
        (argsBaseAmount args) args = none →
        (convert_currency apikey upstream args).2
          = [mkRateRequest apikey (args.baseCurrency.getD "") (args.toCurrency.getD "")])
    ∧ (validation_check (args.baseCurrency.getD "") (args.toCurrency.getD "")
        (argsBaseAmount args) args ≠ none →
        (convert_currency apikey upstream args).2 = []) := by
  have hc := convert_currency_calls apikey upstream args
  rcases hv : validation_check (args.baseCurrency.getD "") (args.toCurrency.getD "")
      (argsBaseAmount args) args with _ | vr
  · rw [hv] at hc
    simp only [] at hc
    exact ⟨by rw [hc]; simp, fun _ => hc, fun hne => absurd rfl hne⟩
  · rw [hv] at hc
    simp only [] at hc
    exact ⟨by rw [hc]; simp, fun h0 => Option.noConfusion h0, fun _ => hc⟩

/-- Witness for C7 amended at a validated request. -/
theorem one_call_amended_witness :
    (convert_currency "key" upstreamNone (Args.mk (some "GBP") (some "USD") none)).2
      = [mkRateRequest "key" "GBP" "USD"] :=
  (one_call_amended "key" upstreamNone (Args.mk (some "GBP") (some "USD") none)).2.1 rfl

/-- C9: a validated request sends one GET to the provider URL carrying
exactly the configured apikey, the uppercased base code as base_currency and
the uppercased target code as currencies; and whenever the upstream body has
the documented shape, any response the endpoint returns carries as
`conversion_rate` exactly the `value` field at `data.<CODE>.value`. -/
theorem outbound_request_exact (apikey : String)
    (upstream : UpstreamRequest → Option Json) (args : Args) (v : Json)
    (hv : validation_check (args.baseCurrency.getD "") (args.toCurrency.getD "")
      (argsBaseAmount args) args = none)
    (hup : upstream (mkRateRequest apikey (args.baseCurrency.getD "")
        (args.toCurrency.getD ""))
      = some (goodBody (pyUpper (args.toCurrency.getD "")) v)) :
    (convert_currency apikey upstream args).2
      = [UpstreamRequest.mk RATE_ENDPOINT apikey (pyUpper (args.baseCurrency.getD ""))
          [pyUpper (args.toCurrency.getD "")]]
    ∧ ∀ r, (convert_currency apikey upstream args).1 = .resp r →
        lookupField r.body "conversion_rate" = some (.json v) := by
  have hrate : (get_conversion_rate apikey upstream (args.baseCurrency.getD "")
      (args.toCurrency.getD "")).1 = some v := by
    simp [get_conversion_rate, hup, goodBody, Json.get?, lookupJson]
  constructor
  · rw [convert_currency_calls apikey upstream args, hv]
    exact rfl
  · intro r h
    simp only [convert_currency, hv, hrate] at h
    cases hat : amountTruthy args
    · simp only [hat, Bool.false_eq_true, if_false] at h
      simp at h
      rw [← h]
      exact rfl
    · simp only [hat, if_true] at h
      rcases hq : v.asPyNumber with _ | q
      · simp only [hq] at h
        simp at h
      · rcases hf : floatOf (argsBaseAmount args) with _ | amt
        · simp only [hq, hf] at h
          simp at h
        · simp only [hq, hf] at h
          simp at h
          rw [← h]
          exact rfl

/-- Witness for C9 at lowercase codes `gbp`/`usd` and a provider value 2. -/
theorem outbound_request_exact_witness :
    (convert_currency "key" (constUpstream (goodBody (pyUpper "usd") (Json.num 2)))
        (Args.mk (some "gbp") (some "usd") none)).2
      = [UpstreamRequest.mk RATE_ENDPOINT "key" (pyUpper "gbp") [pyUpper "usd"]]
    ∧ lookupField (successResp (Json.num 2)
        (Args.mk (some "gbp") (some "usd") none)).body "conversion_rate"
      = some (.json (Json.num 2)) :=
  ⟨(outbound_request_exact "key" (constUpstream (goodBody (pyUpper "usd") (Json.num 2)))
      (Args.mk (some "gbp") (some "usd") none) (Json.num 2) rfl rfl).1,
   (outbound_request_exact "key" (constUpstream (goodBody (pyUpper "usd") (Json.num 2)))
      (Args.mk (some "gbp") (some "usd") none) (Json.num 2) rfl rfl).2
     (successResp (Json.num 2) (Args.mk (some "gbp") (some "usd") none)) rfl⟩

theorem replaceUserInput_currencyError (a b : Args) :
    replaceUserInput (currencyError a) b = currencyError b := rfl

theorem replaceUserInput_amountError (a b : Args) :
    replaceUserInput (amountError a) b = amountError b := rfl

theorem replaceUserInput_successResp (rate : Json) (a b : Args) :
    replaceUserInput (successResp rate a) b = successResp rate b := rfl

theorem replaceUserInput_successRespAmt (rate : Json) (a b : Args) (q amt : ℚ) :
    replaceUserInput (successRespAmt rate a q amt) b = successRespAmt rate b q amt := rfl

/-- C5: currency-code matching is case-insensitive — replacing either code by
any variant with the same uppercasing leaves the endpoint's behaviour
unchanged: the same outbound request list (codes are sent uppercased) and the
same outcome, apart from the `user_input` echo of the raw parameters. -/
theorem case_insensitive_codes (apikey : String)
    (upstream : UpstreamRequest → Option Json) (b₁ t₁ b₂ t₂ : String)
    (am : Option String)
    (hb : pyUpper b₁ = pyUpper b₂) (ht : pyUpper t₁ = pyUpper t₂) :
    convert_currency apikey upstream (Args.mk (some b₂) (some t₂) am)
      = ((convert_currency apikey upstream
            (Args.mk (some b₁) (some t₁) am)).1.withUserInput
          (Args.mk (some b₂) (some t₂) am),
        (convert_currency apikey upstream (Args.mk (some b₁) (some t₁) am)).2) := by
  have hv1 : validCode b₂ = validCode b₁ := by
    simp only [validCode]
    rw [← hb]
  have hv2 : validCode t₂ = validCode t₁ := by
    simp only [validCode]
    rw [← ht]
  have hrc : get_conversion_rate apikey upstream b₂ t₂
      = get_conversion_rate apikey upstream b₁ t₁ := by
    simp only [get_conversion_rate, mkRateRequest]
    rw [← hb, ← ht]
  have hval : validation_check b₂ t₂
      (argsBaseAmount (Args.mk (some b₂) (some t₂) am)) (Args.mk (some b₂) (some t₂) am)
      = Option.map (fun r => replaceUserInput r (Args.mk (some b₂) (some t₂) am))
          (validation_check b₁ t₁ (argsBaseAmount (Args.mk (some b₁) (some t₁) am))
            (Args.mk (some b₁) (some t₁) am)) := by
    have hba : argsBaseAmount (Args.mk (some b₂) (some t₂) am)
        = argsBaseAmount (Args.mk (some b₁) (some t₁) am) := rfl
    rw [hba]
    simp only [validation_check, hv1, hv2]
    cases validCode b₁ <;> cases validCode t₁ <;>
      cases hfl : floatOf (argsBaseAmount (Args.mk (some b₁) (some t₁) am)) <;>
      simp [hfl, replaceUserInput_currencyError, replaceUserInput_amountError]
  simp only [convert_currency, Option.getD_some]
  rw [hval, hrc]
  rcases validation_check b₁ t₁ (argsBaseAmount (Args.mk (some b₁) (some t₁) am))
      (Args.mk (some b₁) (some t₁) am) with _ | vr
  · rcases (get_conversion_rate apikey upstream b₁ t₁).1 with _ | rate
    · simp [Outcome.withUserInput]
    · have hat : amountTruthy (Args.mk (some b₂) (some t₂) am)
          = amountTruthy (Args.mk (some b₁) (some t₁) am) := rfl
      rw [hat]
      have hba : argsBaseAmount (Args.mk (some b₂) (some t₂) am)
          = argsBaseAmount (Args.mk (some b₁) (some t₁) am) := rfl
      rw [hba]
      cases amountTruthy (Args.mk (some b₁) (some t₁) am)
      · simp [Outcome.withUserInput, replaceUserInput_successResp]
      · cases hpn : rate.asPyNumber <;>
          cases hfl : floatOf (argsBaseAmount (Args.mk (some b₁) (some t₁) am)) <;>
          simp [hpn, hfl, Outcome.withUserInput, replaceUserInput_successRespAmt]
  · simp [Outcome.withUserInput]

/-- Witness for C5 at `gbp`/`usd` versus `GBP`/`USD`. -/
theorem case_insensitive_codes_witness :
    pyUpper "gbp" = pyUpper "GBP"
    ∧ convert_currency "key" upstreamNone (Args.mk (some "GBP") (some "USD") none)
      = ((convert_currency "key" upstreamNone
            (Args.mk (some "gbp") (some "usd") none)).1.withUserInput
          (Args.mk (some "GBP") (some "USD") none),
        (convert_currency "key" upstreamNone (Args.mk (some "gbp") (some "usd") none)).2) :=
  ⟨rfl, case_insensitive_codes "key" upstreamNone "gbp" "usd" "GBP" "USD" none rfl rfl⟩
